import Mathlib

/-!
# compat/sendmsg.c : the three sendmsg replacements

A shallow embedding of `src/compat/sendmsg.c`.  Each preprocessor branch is one
namespace (`Win32`, `NaCl`, `Android`).  A call is a pure function from the
value of `errno` at entry, the arguments and the behaviour of the library
functions it calls (`malloc`, `WSASendTo`, `send`, `sendto`, the wrapped
`sendmsg`) to the returned `ssize_t`, the value of `errno` at exit and the
ordered list of library calls that were made.
-/

namespace Sendmsg

/-- Conversion of an unsigned value to a signed integer type of `w` bits
(`return sent;` converts a `DWORD` to `ssize_t`): reduction modulo `2 ^ w`
into the range `-2 ^ (w-1) .. 2 ^ (w-1) - 1`. -/
def toSigned (w : Nat) (v : Nat) : Int :=
  if v % 2 ^ w < 2 ^ (w - 1) then ((v % 2 ^ w : Nat) : Int)
  else ((v % 2 ^ w : Nat) : Int) - ((2 ^ w : Nat) : Int)

/-- Modelled from the spec: `struct iovec` is declared outside src/
(a buffer-list element is a pointer and a length).  `iov_base` is the address
of the buffer, `iov_len` its `size_t` length. -/
structure iovec where
  iov_base : Nat
  iov_len : Nat

/-- Value of `ssize_t` returned, `errno` at exit, and the library calls made,
in order. -/
structure Outcome (ε : Type) where
  ret : Int
  errno : Int
  trace : List ε

/-! ## `#ifdef _WIN32` -/

namespace Win32

/-- Modelled from the spec: the error code "function not supported", `ENOSYS`; `<errno.h>` is
outside src/, the number is the one of the Windows C runtime. -/
def ENOSYS : Int := 40
/-- Modelled from the spec: the error code "invalid argument", `EINVAL`; `<errno.h>` is
outside src/, the number is the one of the Windows C runtime. -/
def EINVAL : Int := 22
/-- Modelled from the spec: the error code "out of memory", `ENOMEM`; `<errno.h>` is
outside src/, the number is the one of the Windows C runtime. -/
def ENOMEM : Int := 12
/-- Modelled from the spec: the error code "try again", `EAGAIN`; `<errno.h>` is
outside src/, the number is the one of the Windows C runtime. -/
def EAGAIN : Int := 11
/-- Modelled from the spec: the native "would block" status, `WSAEWOULDBLOCK`;
`<winsock2.h>` is outside src/, the number is the Winsock one. -/
def WSAEWOULDBLOCK : Int := 10035

/-- Modelled from the spec: `struct msghdr` is declared outside src/ for
Windows.  The buffer count and the lengths are unsigned (`size_t`): the code
compares the count with an `unsigned` counter and has no test for a negative
count.  `msg_iov` is the array the pointer designates, read by index;
`msg_name` is an address, `0` for `NULL`. -/
structure msghdr where
  msg_name : Nat
  msg_namelen : Nat
  msg_iov : Nat → iovec
  msg_iovlen : Nat
  msg_control : Nat
  msg_controllen : Nat
  msg_flags : Int

/-- Modelled from the spec: `WSABUF` of `<winsock2.h>`, a descriptor with a
32-bit unsigned `len` and a pointer `buf`. -/
structure WSABUF where
  len : Nat
  buf : Nat
deriving DecidableEq

/-- What one call of `WSASendTo` does: its `int` return value, the value it
stores through `lpNumberOfBytesSent`, and what `WSAGetLastError()` yields
afterwards. -/
structure WSAResult where
  ret : Int
  sent : Nat
  lastError : Int

/-- Library calls of the Windows branch.  `WSASendTo s bufs count flags name
namelen` holds the arguments as the callee receives them, in the parameter
types of the Winsock prototype (`SOCKET s`, `DWORD dwBufferCount`,
`DWORD dwFlags`, `const struct sockaddr *lpTo`, `int iTolen`); `bufs` are the
descriptors found in the array passed. -/
inductive Event where
  | malloc (size : Nat)
  | WSASendTo (s : Nat) (bufs : List WSABUF) (count : Nat) (flags : Nat)
      (name : Nat) (namelen : Int)
  | free
deriving DecidableEq

/-- True of the native send primitive. -/
def Event.isSend : Event → Bool
  | .WSASendTo _ _ _ _ _ _ => true
  | _ => false

/-- True of an allocation. -/
def Event.isAlloc : Event → Bool
  | .malloc _ => true
  | _ => false

/-- The platform and the library the Windows branch runs against.
`size_bits` is the width of `size_t` and `ssize_t` (32 or 64 on Windows),
`IOV_MAX` and `sizeof_WSABUF` the constants of that name; `IOV_MAX` is a
constant of type `int`, so the `unsigned` loop counter never wraps.
`malloc_ok size` tells whether `malloc (size)` returns a non-null pointer,
`malloc_errno` is the value a failing `malloc` stores in `errno` (`none` when
it leaves `errno` alone), `fresh` the indeterminate contents of the new array.
`WSASendTo` is the native function, applied to the arguments it receives in
its own parameter types.  A successful `malloc`, `free` and `WSASendTo` do not
write `errno`. -/
structure Env where
  size_bits : Nat
  IOV_MAX : Nat
  IOV_MAX_int : IOV_MAX < 2 ^ 31
  sizeof_WSABUF : Nat
  malloc_ok : Nat → Bool
  malloc_errno : Option Int
  fresh : Nat → WSABUF
  WSASendTo : Nat → List WSABUF → Nat → Nat → Nat → Int → WSAResult

/-- Conversion of the `int fd` to the parameter type `SOCKET`, an unsigned
integer of pointer width: reduction modulo `2 ^ size_bits`. -/
def toSOCKET (env : Env) (fd : Int) : Nat :=
  (fd % (2 : Int) ^ env.size_bits).toNat

/-- Conversion of an `int` to the parameter type `DWORD` (32 bits, unsigned):
reduction modulo `2 ^ 32`, which keeps the 32-bit pattern. -/
def toDWORD (v : Int) : Nat :=
  (v % (2 : Int) ^ 32).toNat

/-- Conversion of a `size_t` to the parameter type `int` (32 bits, signed). -/
def toINT (v : Nat) : Int :=
  toSigned 32 v

/-- State of the array `buf` after `k` rounds of
`for (unsigned i = 0; i < msg->msg_iovlen; i++)`: round `i` stores
`buf[i].len = msg->msg_iov[i].iov_len` (narrowed to 32 bits) and
`buf[i].buf = msg->msg_iov[i].iov_base`. -/
def fill (msg : msghdr) (fresh : Nat → WSABUF) : Nat → (Nat → WSABUF)
  | 0 => fresh
  | k + 1 => fun j =>
      if j = k then ⟨(msg.msg_iov k).iov_len % 2 ^ 32, (msg.msg_iov k).iov_base⟩
      else fill msg fresh k j

/-- The descriptors `WSASendTo` is given: the first `msg_iovlen` entries of
the filled array. -/
def descriptors (env : Env) (msg : msghdr) : List WSABUF :=
  (List.range msg.msg_iovlen).map (fill msg env.fresh msg.msg_iovlen)

/-- Argument of `malloc`: `msg->msg_iovlen * sizeof (*buf)` in `size_t`. -/
def alloc_size (env : Env) (msg : msghdr) : Nat :=
  (msg.msg_iovlen * env.sizeof_WSABUF) % 2 ^ env.size_bits

/-- The call `WSASendTo (fd, buf, msg->msg_iovlen, &sent, flags, msg->msg_name,
msg->msg_namelen, NULL, NULL)` of lines 60-61 as a library event: every
argument is converted to the type of its parameter. -/
def WSASendTo_event (env : Env) (fd : Int) (msg : msghdr) (flags : Int) : Event :=
  Event.WSASendTo (toSOCKET env fd) (descriptors env msg) (msg.msg_iovlen % 2 ^ 32)
    (toDWORD flags) msg.msg_name (toINT msg.msg_namelen)

/-- What that call of `WSASendTo` does, on the same converted arguments. -/
def WSASendTo_call (env : Env) (fd : Int) (msg : msghdr) (flags : Int) : WSAResult :=
  env.WSASendTo (toSOCKET env fd) (descriptors env msg) (msg.msg_iovlen % 2 ^ 32)
    (toDWORD flags) msg.msg_name (toINT msg.msg_namelen)

/-- The function `sendmsg` of the `_WIN32` branch (lines 34-74). -/
def sendmsg (env : Env) (errno : Int) (fd : Int) (msg : msghdr) (flags : Int) :
    Outcome Event :=
  if msg.msg_controllen ≠ 0 then
    ⟨-1, ENOSYS, []⟩
  else if msg.msg_iovlen > env.IOV_MAX then
    ⟨-1, EINVAL, []⟩
  else if env.malloc_ok (alloc_size env msg) = false then
    ⟨-1, env.malloc_errno.getD errno, [Event.malloc (alloc_size env msg)]⟩
  else
    let r := WSASendTo_call env fd msg flags
    let trace := [Event.malloc (alloc_size env msg), WSASendTo_event env fd msg flags,
      Event.free]
    if r.ret = 0 then
      ⟨toSigned env.size_bits (r.sent % 2 ^ 32), errno, trace⟩
    else if r.lastError = WSAEWOULDBLOCK then
      ⟨-1, EAGAIN, trace⟩
    else
      ⟨-1, errno, trace⟩

end Win32

/-! ## `#elif defined __native_client__` -/

namespace NaCl

/-- Modelled from the spec: the error code "function not supported", `ENOSYS`; `<errno.h>` is
outside src/, the number is the one of newlib. -/
def ENOSYS : Int := 88
/-- Modelled from the spec: the error code "message too large", `EMSGSIZE`; `<errno.h>` is
outside src/, the number is the one of newlib. -/
def EMSGSIZE : Int := 122
/-- Modelled from the spec: the error code "invalid argument", `EINVAL`; `<errno.h>` is
outside src/, the number is the one of newlib. -/
def EINVAL : Int := 22
/-- Modelled from the spec: the error code "out of memory", `ENOMEM`; `<errno.h>` is
outside src/, the number is the one of newlib. -/
def ENOMEM : Int := 12

/-- Modelled from the spec: `struct msghdr` of `<sys/socket.h>`.  The buffer
count is a signed `int` here (the code tests `msg_iovlen <= 0` and counts with
an `int`).  `msg_iov` is the array the pointer designates, read by index;
`msg_name` is an address, `0` for `NULL`. -/
structure msghdr where
  msg_name : Nat
  msg_namelen : Nat
  msg_iov : Nat → iovec
  msg_iovlen : Int
  msg_control : Nat
  msg_controllen : Nat
  msg_flags : Int

/-- Library calls of the sandboxed-runtime branch.  `memcpy off src n` copies
`n` bytes from address `src` to `data + off`.  For `send` and `sendto`,
`bytes` are the first `len` bytes found at `data`. -/
inductive Event where
  | malloc (size : Nat)
  | memcpy (off : Nat) (src : Nat) (n : Nat)
  | sendto (fd : Int) (bytes : List Nat) (len : Nat) (flags : Int)
      (name : Nat) (namelen : Nat)
  | send (fd : Int) (bytes : List Nat) (len : Nat) (flags : Int)
  | free
deriving DecidableEq

/-- True of the native send primitives. -/
def Event.isSend : Event → Bool
  | .sendto _ _ _ _ _ _ => true
  | .send _ _ _ _ => true
  | _ => false

/-- True of an allocation. -/
def Event.isAlloc : Event → Bool
  | .malloc _ => true
  | _ => false

/-- What one call of `send` or `sendto` does: the `ssize_t` it returns and the
value it stores in `errno` (`none` when it leaves `errno` alone). -/
structure SendResult where
  ret : Int
  err : Option Int

/-- The platform and the library the sandboxed-runtime branch runs against.
`size_bits` is the width of `size_t` and `ssize_t`, `IOV_MAX` the constant of
that name, of type `int`, so the `int` loop counter never overflows.
`mem` is the caller's memory (byte at an address), `fresh` the indeterminate
contents found at the pointer `malloc` returns, by offset.  A successful
`malloc`, `memcpy` and `free` do not write `errno`. -/
structure Env where
  size_bits : Nat
  IOV_MAX : Nat
  IOV_MAX_int : IOV_MAX < 2 ^ 31
  malloc_ok : Nat → Bool
  mem : Nat → Nat
  fresh : Nat → Nat
  send : Int → List Nat → Nat → Int → SendResult
  sendto : Int → List Nat → Nat → Int → Nat → Nat → SendResult

/-- The constant `SSIZE_MAX` for a `ssize_t` of `size_bits` bits. -/
def SSIZE_MAX (env : Env) : Nat := 2 ^ (env.size_bits - 1) - 1

/-- Value of `full_size` after `k` rounds of
`for (int i = 0; i < msg->msg_iovlen; ++i) full_size += msg->msg_iov[i].iov_len;`
with `size_t` arithmetic, which is modulo `2 ^ size_bits`. -/
def full_size_loop (env : Env) (msg : msghdr) : Nat → Nat
  | 0 => 0
  | k + 1 => (full_size_loop env msg k + (msg.msg_iov k).iov_len) % 2 ^ env.size_bits

/-- The variable `full_size` after the whole loop. -/
def full_size (env : Env) (msg : msghdr) : Nat :=
  full_size_loop env msg msg.msg_iovlen.toNat

/-- Memory at `data` after `memcpy (data + off, src, n)`. -/
def memcpy (mem : Nat → Nat) (data : Nat → Nat) (off src n : Nat) : Nat → Nat :=
  fun j => if off ≤ j ∧ j < off + n then mem (src + (j - off)) else data j

/-- State of the copy loop (lines 117-121). -/
structure CopyState where
  data : Nat → Nat
  tmp : Nat
  calls : List Event

/-- State after `k` rounds of the copy loop: round `i` does
`memcpy (data + tmp, iov_base, iov_len)` and `tmp += iov_len` (in `size_t`). -/
def copy_loop (env : Env) (msg : msghdr) : Nat → CopyState
  | 0 => ⟨env.fresh, 0, []⟩
  | k + 1 =>
      let s := copy_loop env msg k
      ⟨memcpy env.mem s.data s.tmp (msg.msg_iov k).iov_base (msg.msg_iov k).iov_len,
       (s.tmp + (msg.msg_iov k).iov_len) % 2 ^ env.size_bits,
       s.calls ++ [Event.memcpy s.tmp (msg.msg_iov k).iov_base (msg.msg_iov k).iov_len]⟩

/-- The `full_size` bytes found at `data` when the send primitive is called. -/
def payload (env : Env) (msg : msghdr) : List Nat :=
  (List.range (full_size env msg)).map (copy_loop env msg msg.msg_iovlen.toNat).data

/-- Argument of `malloc`: `full_size ? full_size : 1`. -/
def alloc_size (env : Env) (msg : msghdr) : Nat :=
  if full_size env msg ≠ 0 then full_size env msg else 1

/-- The function `sendmsg` of the `__native_client__` branch (lines 84-131). -/
def sendmsg (env : Env) (errno : Int) (fd : Int) (msg : msghdr) (flags : Int) :
    Outcome Event :=
  if msg.msg_controllen ≠ 0 then
    ⟨-1, ENOSYS, []⟩
  else if msg.msg_iovlen ≤ 0 ∨ msg.msg_iovlen > (env.IOV_MAX : Int) then
    ⟨-1, EMSGSIZE, []⟩
  else if full_size env msg > SSIZE_MAX env then
    ⟨-1, EINVAL, []⟩
  else if env.malloc_ok (alloc_size env msg) = false then
    ⟨-1, ENOMEM, [Event.malloc (alloc_size env msg)]⟩
  else
    let copies := (copy_loop env msg msg.msg_iovlen.toNat).calls
    if msg.msg_name ≠ 0 then
      let res := env.sendto fd (payload env msg) (full_size env msg) flags
        msg.msg_name msg.msg_namelen
      ⟨res.ret, res.err.getD errno,
        Event.malloc (alloc_size env msg) :: copies ++
          [Event.sendto fd (payload env msg) (full_size env msg) flags
            msg.msg_name msg.msg_namelen, Event.free]⟩
    else
      let res := env.send fd (payload env msg) (full_size env msg) flags
      ⟨res.ret, res.err.getD errno,
        Event.malloc (alloc_size env msg) :: copies ++
          [Event.send fd (payload env msg) (full_size env msg) flags, Event.free]⟩

end NaCl

/-! ## `#elif defined(__ANDROID__) && defined(__aarch64__)` -/

namespace Android

/-- What the wrapped native `sendmsg` does, given the value of `errno` when it
is called: the raw `ssize_t` it returns (64 bits on aarch64) and the value of
`errno` when it returns. -/
structure Native where
  ret : Int
  errno : Int

/-- The function `vlc_sendmsg` (lines 148-155).  `native` is the wrapped
`sendmsg`, applied to the arguments as received and run from `errno = 0`
(the statement `errno = 0;` overwrites the value `errno` had at entry).
The constant `0xFFFFFFFF` is an `unsigned int`; compared with the 64-bit
`ssize_t` it has the value 4294967295. -/
def vlc_sendmsg {μ : Type} (native : Int → μ → Int → Int → Native)
    (errno : Int) (fd : Int) (msg : μ) (flags : Int) : Outcome Unit :=
  let r := native fd msg flags 0
  if (r.ret < 0 ∨ r.ret = 0xFFFFFFFF) ∧ r.errno ≠ 0 then
    ⟨-1, r.errno, []⟩
  else
    ⟨r.ret, r.errno, []⟩

end Android

/-! ## Quantities the claims speak of -/

namespace Win32

/-- The constant `SSIZE_MAX` for a `ssize_t` of `size_bits` bits. -/
def SSIZE_MAX (env : Env) : Nat := 2 ^ (env.size_bits - 1) - 1

/-- The descriptor list that holds, for each of the first `n` buffers in
order, its pointer and its `iov_len` as it stands. -/
def exact_descriptors (msg : msghdr) (n : Nat) : List WSABUF :=
  (List.range n).map (fun i => ⟨(msg.msg_iov i).iov_len, (msg.msg_iov i).iov_base⟩)

end Win32

namespace NaCl

/-- The mathematical (unbounded) sum of the lengths of the first `k` buffers. -/
def total_len (msg : msghdr) : Nat → Nat
  | 0 => 0
  | k + 1 => total_len msg k + (msg.msg_iov k).iov_len

/-- The bytes of one buffer, read from the caller's memory. -/
def buffer_bytes (env : Env) (v : iovec) : List Nat :=
  (List.range v.iov_len).map (fun j => env.mem (v.iov_base + j))

/-- The contents of the first `k` buffers, concatenated in list order. -/
def concat_buffers (env : Env) (msg : msghdr) : Nat → List Nat
  | 0 => []
  | k + 1 => concat_buffers env msg k ++ buffer_bytes env (msg.msg_iov k)

/-- The conditions under which the call returns before it reaches the send:
one of the three validation checks fails or `malloc` returns `NULL`. -/
def rejected (env : Env) (msg : msghdr) : Prop :=
  msg.msg_controllen ≠ 0 ∨ msg.msg_iovlen ≤ 0 ∨ msg.msg_iovlen > (env.IOV_MAX : Int) ∨
    full_size env msg > SSIZE_MAX env ∨ env.malloc_ok (alloc_size env msg) = false

instance rejected_decidable (env : Env) (msg : msghdr) : Decidable (rejected env msg) := by
  unfold rejected
  infer_instance

end NaCl

/-! ## Concrete platforms and messages -/

namespace Win32

/-- A 32-bit Windows whose `malloc` succeeds and whose `WSASendTo` accepts
every byte of the descriptors it is given. -/
def env32 : Env where
  size_bits := 32
  IOV_MAX := 255
  IOV_MAX_int := by decide
  sizeof_WSABUF := 8
  malloc_ok := fun _ => true
  malloc_errno := some ENOMEM
  fresh := fun _ => ⟨0, 0⟩
  WSASendTo := fun _ bufs _ _ _ _ => ⟨0, (bufs.map WSABUF.len).sum, 0⟩

/-- A 64-bit Windows, otherwise as `env32`. -/
def env64 : Env where
  size_bits := 64
  IOV_MAX := 255
  IOV_MAX_int := by decide
  sizeof_WSABUF := 16
  malloc_ok := fun _ => true
  malloc_errno := some ENOMEM
  fresh := fun _ => ⟨0, 0⟩
  WSASendTo := fun _ bufs _ _ _ _ => ⟨0, (bufs.map WSABUF.len).sum, 0⟩

/-- Two buffers of 3 and 2 bytes at addresses 1000 and 2000, no destination
address, no ancillary data. -/
def msg2 : msghdr where
  msg_name := 0
  msg_namelen := 0
  msg_iov := fun i => if i = 0 then ⟨1000, 3⟩ else ⟨2000, 2⟩
  msg_iovlen := 2
  msg_control := 0
  msg_controllen := 0
  msg_flags := 0

/-- The message `msg2` with 8 bytes of ancillary data attached. -/
def msg_ctl : msghdr := { msg2 with msg_control := 3000, msg_controllen := 8 }

/-- The message `msg2` with a buffer count of 256, one more than `IOV_MAX`. -/
def msg_many : msghdr := { msg2 with msg_iovlen := 256 }

/-- One buffer of 4 GiB at address 4096, as a 64-bit caller can pass, with a
destination address at 5000 whose stated length is `2 ^ 32 + 16`. -/
def msg_big : msghdr :=
  { msg2 with msg_iov := fun _ => ⟨4096, 2 ^ 32⟩, msg_iovlen := 1,
              msg_name := 5000, msg_namelen := 2 ^ 32 + 16 }

/-- The message `msg2` addressed to the socket address of 16 bytes at 5000. -/
def msg_to : msghdr := { msg2 with msg_name := 5000, msg_namelen := 16 }

/-- The platform `env32` with a `malloc` that fails and leaves `errno` alone. -/
def env_nomem : Env := { env32 with malloc_ok := fun _ => false, malloc_errno := none }

/-- The platform `env32` with a `WSASendTo` that fails with the error `code`. -/
def env_fail (code : Int) : Env :=
  { env32 with WSASendTo := fun _ _ _ _ _ _ => ⟨-1, 0, code⟩ }

/-- The platform `env32` with a `WSASendTo` that succeeds and reports `n`
bytes sent. -/
def env_sent (n : Nat) : Env :=
  { env32 with WSASendTo := fun _ _ _ _ _ _ => ⟨0, n, 0⟩ }

end Win32

namespace NaCl

/-- A 32-bit sandboxed runtime whose `malloc` succeeds and whose `send` and
`sendto` accept the whole buffer.  The byte at address `a` is `a % 256`. -/
def env32 : Env where
  size_bits := 32
  IOV_MAX := 1024
  IOV_MAX_int := by decide
  malloc_ok := fun _ => true
  mem := fun a => a % 256
  fresh := fun _ => 0
  send := fun _ _ len _ => ⟨len, none⟩
  sendto := fun _ _ len _ _ _ => ⟨len, none⟩

/-- Two buffers of 3 and 2 bytes at addresses 1000 and 2000, no destination
address, no ancillary data. -/
def msg2 : msghdr where
  msg_name := 0
  msg_namelen := 0
  msg_iov := fun i => if i = 0 then ⟨1000, 3⟩ else ⟨2000, 2⟩
  msg_iovlen := 2
  msg_control := 0
  msg_controllen := 0
  msg_flags := 0

/-- The message `msg2` with 8 bytes of ancillary data attached. -/
def msg_ctl : msghdr := { msg2 with msg_control := 3000, msg_controllen := 8 }

/-- The message `msg2` with a buffer count of 1025, one more than `IOV_MAX`. -/
def msg_many : msghdr := { msg2 with msg_iovlen := 1025 }

/-- The message `msg2` addressed to the socket address of 16 bytes at 5000. -/
def msg_to : msghdr := { msg2 with msg_name := 5000, msg_namelen := 16 }

/-- Two buffers of 2 GiB each, both at address 4096: 4 GiB in total. -/
def msg_halves : msghdr := { msg2 with msg_iov := fun _ => ⟨4096, 2 ^ 31⟩ }

/-- Sixteen buffers of 256 MiB each, all at address 4096: 4 GiB in total. -/
def msg_wrap : msghdr := { msg2 with msg_iov := fun _ => ⟨4096, 2 ^ 28⟩, msg_iovlen := 16 }

/-- The platform `env32` with a `malloc` that fails. -/
def env_nomem : Env := { env32 with malloc_ok := fun _ => false }

end NaCl

namespace Android

/-- A native `sendmsg` that fails: it hands back the 32-bit pattern of -1 in a
64-bit `ssize_t` and sets `errno` to 11. -/
def native_truncated : Int → Unit → Int → Int → Native :=
  fun _ _ _ _ => ⟨0xFFFFFFFF, 11⟩

/-- A native `sendmsg` that returns `r` and does not write `errno`. -/
def native_quiet (r : Int) : Int → Unit → Int → Int → Native :=
  fun _ _ _ e => ⟨r, e⟩

end Android

/-! ## Theorems -/

/-! ### Loop lemmas -/

theorem toSigned_of_lt (w v : Nat) (h : v < 2 ^ (w - 1)) : toSigned w v = (v : Int) := by
  have h3 : 2 ^ (w - 1) ≤ 2 ^ w := Nat.pow_le_pow_right (by decide) (Nat.sub_le _ _)
  have hmod : v % 2 ^ w = v := Nat.mod_eq_of_lt (lt_of_lt_of_le h h3)
  unfold toSigned
  rw [hmod, if_pos h]

theorem Win32.fill_apply (msg : Win32.msghdr) (fresh : Nat → Win32.WSABUF) (n i : Nat)
    (h : i < n) :
    Win32.fill msg fresh n i =
      ⟨(msg.msg_iov i).iov_len % 2 ^ 32, (msg.msg_iov i).iov_base⟩ := by
  induction n with
  | zero => omega
  | succ k ih =>
    by_cases hik : i = k
    · subst hik; simp [Win32.fill]
    · have hlt : i < k := by omega
      simp [Win32.fill, hik, ih hlt]

theorem Win32.descriptors_eq (env : Win32.Env) (msg : Win32.msghdr) :
    Win32.descriptors env msg = (List.range msg.msg_iovlen).map
      (fun i => ⟨(msg.msg_iov i).iov_len % 2 ^ 32, (msg.msg_iov i).iov_base⟩) := by
  unfold Win32.descriptors
  apply List.map_congr_left
  intro i hi
  exact Win32.fill_apply msg env.fresh _ i (List.mem_range.mp hi)

theorem NaCl.total_len_mono (msg : NaCl.msghdr) (k : Nat) :
    NaCl.total_len msg k ≤ NaCl.total_len msg (k + 1) := by
  simp [NaCl.total_len]

theorem NaCl.full_size_loop_eq (env : NaCl.Env) (msg : NaCl.msghdr) (k : Nat)
    (h : NaCl.total_len msg k < 2 ^ env.size_bits) :
    NaCl.full_size_loop env msg k = NaCl.total_len msg k := by
  induction k with
  | zero => rfl
  | succ k ih =>
    have hk : NaCl.total_len msg k < 2 ^ env.size_bits :=
      lt_of_le_of_lt (NaCl.total_len_mono msg k) h
    simp only [NaCl.full_size_loop, ih hk]
    exact Nat.mod_eq_of_lt h

theorem NaCl.length_concat_buffers (env : NaCl.Env) (msg : NaCl.msghdr) (k : Nat) :
    (NaCl.concat_buffers env msg k).length = NaCl.total_len msg k := by
  induction k with
  | zero => rfl
  | succ k ih => simp [NaCl.concat_buffers, NaCl.total_len, NaCl.buffer_bytes, ih]

theorem NaCl.copy_loop_spec (env : NaCl.Env) (msg : NaCl.msghdr) (k : Nat)
    (h : NaCl.total_len msg k < 2 ^ env.size_bits) :
    (NaCl.copy_loop env msg k).tmp = NaCl.total_len msg k ∧
    (List.range (NaCl.total_len msg k)).map (NaCl.copy_loop env msg k).data =
      NaCl.concat_buffers env msg k := by
  induction k with
  | zero => exact ⟨rfl, rfl⟩
  | succ k ih =>
    have hk : NaCl.total_len msg k < 2 ^ env.size_bits :=
      lt_of_le_of_lt (NaCl.total_len_mono msg k) h
    obtain ⟨htmp, hdata⟩ := ih hk
    refine ⟨?_, ?_⟩
    · simp only [NaCl.copy_loop, htmp]
      exact Nat.mod_eq_of_lt h
    · simp only [NaCl.copy_loop, NaCl.total_len, NaCl.concat_buffers, htmp,
        List.range_add, List.map_append, List.map_map]
      congr 1
      · rw [← hdata]
        apply List.map_congr_left
        intro j hj
        have hj2 : j < NaCl.total_len msg k := List.mem_range.mp hj
        simp [NaCl.memcpy, Nat.not_le.mpr hj2]
      · unfold NaCl.buffer_bytes
        apply List.map_congr_left
        intro j hj
        have hj2 : j < (msg.msg_iov k).iov_len := List.mem_range.mp hj
        simp [NaCl.memcpy, hj2]

theorem NaCl.copy_loop_calls (env : NaCl.Env) (msg : NaCl.msghdr) (k : Nat) :
    (NaCl.copy_loop env msg k).calls.filter NaCl.Event.isSend = [] ∧
    (NaCl.copy_loop env msg k).calls.filter NaCl.Event.isAlloc = [] := by
  induction k with
  | zero => exact ⟨rfl, rfl⟩
  | succ k ih =>
    simp [NaCl.copy_loop, List.filter_append, ih.1, ih.2, NaCl.Event.isSend,
      NaCl.Event.isAlloc]

/-! ### The claims -/

/-- C1: in the Windows and in the sandboxed-runtime `sendmsg`, a message whose
`msg_controllen` is not zero makes the call return -1 with `errno` set to
`ENOSYS`, whatever its other fields and the flags, and no library call is made:
no allocation and no `WSASendTo`, `sendto` or `send`. -/
theorem C1_ancillary_data_rejected (wenv : Win32.Env) (nenv : NaCl.Env)
    (errno fd flags : Int) (wmsg : Win32.msghdr) (nmsg : NaCl.msghdr)
    (hw : wmsg.msg_controllen ≠ 0) (hn : nmsg.msg_controllen ≠ 0) :
    Win32.sendmsg wenv errno fd wmsg flags = ⟨-1, Win32.ENOSYS, []⟩ ∧
    NaCl.sendmsg nenv errno fd nmsg flags = ⟨-1, NaCl.ENOSYS, []⟩ := by
  constructor
  · simp [Win32.sendmsg, hw]
  · simp [NaCl.sendmsg, hn]

/-- Witness of C1 on the 32-bit platforms, with 8 bytes of ancillary data. -/
theorem C1_ancillary_data_rejected_witness :
    Win32.msg_ctl.msg_controllen ≠ 0 ∧ NaCl.msg_ctl.msg_controllen ≠ 0 ∧
    Win32.sendmsg Win32.env32 0 3 Win32.msg_ctl 0 = ⟨-1, Win32.ENOSYS, []⟩ ∧
    NaCl.sendmsg NaCl.env32 0 3 NaCl.msg_ctl 0 = ⟨-1, NaCl.ENOSYS, []⟩ :=
  ⟨by decide, by decide,
    C1_ancillary_data_rejected Win32.env32 NaCl.env32 0 3 0 Win32.msg_ctl NaCl.msg_ctl
      (by decide) (by decide)⟩

/-- C2: with `msg_controllen = 0` and a buffer count `msg_iovlen` greater than
`IOV_MAX`, the call returns -1 with `errno` set to `EINVAL` in the Windows
`sendmsg` and to `EMSGSIZE` in the sandboxed-runtime `sendmsg`, and no library
call is made: no allocation and no native send. -/
theorem C2_too_many_buffers_rejected (wenv : Win32.Env) (nenv : NaCl.Env)
    (errno fd flags : Int) (wmsg : Win32.msghdr) (nmsg : NaCl.msghdr)
    (hwc : wmsg.msg_controllen = 0) (hw : wmsg.msg_iovlen > wenv.IOV_MAX)
    (hnc : nmsg.msg_controllen = 0) (hn : nmsg.msg_iovlen > (nenv.IOV_MAX : Int)) :
    Win32.sendmsg wenv errno fd wmsg flags = ⟨-1, Win32.EINVAL, []⟩ ∧
    NaCl.sendmsg nenv errno fd nmsg flags = ⟨-1, NaCl.EMSGSIZE, []⟩ := by
  constructor
  · simp [Win32.sendmsg, hwc, hw]
  · simp [NaCl.sendmsg, hnc, hn]

/-- Witness of C2: 256 buffers on Windows (`IOV_MAX` 255) and 1025 buffers in
the sandboxed runtime (`IOV_MAX` 1024). -/
theorem C2_too_many_buffers_rejected_witness :
    Win32.msg_many.msg_controllen = 0 ∧
    Win32.msg_many.msg_iovlen > Win32.env32.IOV_MAX ∧
    NaCl.msg_many.msg_controllen = 0 ∧
    NaCl.msg_many.msg_iovlen > (NaCl.env32.IOV_MAX : Int) ∧
    Win32.sendmsg Win32.env32 0 3 Win32.msg_many 0 = ⟨-1, Win32.EINVAL, []⟩ ∧
    NaCl.sendmsg NaCl.env32 0 3 NaCl.msg_many 0 = ⟨-1, NaCl.EMSGSIZE, []⟩ :=
  ⟨by decide, by decide, by decide, by decide,
    C2_too_many_buffers_rejected Win32.env32 NaCl.env32 0 3 0 Win32.msg_many NaCl.msg_many
      (by decide) (by decide) (by decide) (by decide)⟩

/-- C3, evaluated on the code: on a 32-bit runtime, sixteen buffers of 256 MiB
(and likewise two buffers of 2 GiB) have a true total of 4 GiB, above
`SSIZE_MAX`, yet `full_size` wraps to 0, the guard `full_size > SSIZE_MAX` does
not fire, and the call allocates one byte, copies, calls `send` with length 0
and returns its result 0 rather than -1. -/
theorem C3_wrapped_total_passes_guard :
    NaCl.msg_wrap.msg_controllen = 0 ∧ 1 ≤ NaCl.msg_wrap.msg_iovlen ∧
    NaCl.msg_wrap.msg_iovlen ≤ (NaCl.env32.IOV_MAX : Int) ∧
    (NaCl.msg_wrap.msg_iov 0).iov_len < 2 ^ NaCl.env32.size_bits ∧
    NaCl.total_len NaCl.msg_wrap 16 = 2 ^ 32 ∧
    NaCl.total_len NaCl.msg_wrap 16 > NaCl.SSIZE_MAX NaCl.env32 ∧
    NaCl.full_size NaCl.env32 NaCl.msg_wrap = 0 ∧
    (NaCl.sendmsg NaCl.env32 0 3 NaCl.msg_wrap 0).ret = 0 ∧
    (NaCl.sendmsg NaCl.env32 0 3 NaCl.msg_wrap 0).errno = 0 ∧
    (NaCl.sendmsg NaCl.env32 0 3 NaCl.msg_wrap 0).trace.filter NaCl.Event.isAlloc =
      [NaCl.Event.malloc 1] ∧
    (NaCl.sendmsg NaCl.env32 0 3 NaCl.msg_wrap 0).trace.take 2 =
      [NaCl.Event.malloc 1, NaCl.Event.memcpy 0 4096 (2 ^ 28)] ∧
    (NaCl.sendmsg NaCl.env32 0 3 NaCl.msg_wrap 0).trace.filter NaCl.Event.isSend =
      [NaCl.Event.send 3 [] 0 0] ∧
    NaCl.total_len NaCl.msg_halves 2 > NaCl.SSIZE_MAX NaCl.env32 ∧
    (NaCl.sendmsg NaCl.env32 0 3 NaCl.msg_halves 0).ret = 0 ∧
    (NaCl.sendmsg NaCl.env32 0 3 NaCl.msg_halves 0).trace =
      [NaCl.Event.malloc 1, NaCl.Event.memcpy 0 4096 (2 ^ 31),
        NaCl.Event.memcpy (2 ^ 31) 4096 (2 ^ 31), NaCl.Event.send 3 [] 0 0,
        NaCl.Event.free] := by
  refine ⟨?_, ?_, ?_, ?_, ?_, ?_, ?_, ?_, ?_, ?_, ?_, ?_, ?_, ?_, ?_⟩ <;> decide

/-- C4: in the sandboxed-runtime `sendmsg`, for a message that passes
validation (`msg_controllen = 0`, `1 <= msg_iovlen <= IOV_MAX`, total length
`L <= SSIZE_MAX`) and whose allocation succeeds, the one native call is
`sendto` or `send` on exactly the concatenation of the buffers in list order,
with length argument `L`, the sum of the `iov_len` values, and when that
primitive returns `L` the call returns `L`. -/
theorem C4_sends_concatenation (env : NaCl.Env) (errno fd flags : Int) (msg : NaCl.msghdr)
    (hc : msg.msg_controllen = 0) (h1 : 1 ≤ msg.msg_iovlen)
    (h2 : msg.msg_iovlen ≤ (env.IOV_MAX : Int))
    (hL : NaCl.total_len msg msg.msg_iovlen.toNat ≤ NaCl.SSIZE_MAX env)
    (hm : env.malloc_ok (NaCl.alloc_size env msg) = true) :
    (NaCl.sendmsg env errno fd msg flags).trace.filter NaCl.Event.isSend =
      [if msg.msg_name ≠ 0 then
          NaCl.Event.sendto fd (NaCl.concat_buffers env msg msg.msg_iovlen.toNat)
            (NaCl.total_len msg msg.msg_iovlen.toNat) flags msg.msg_name msg.msg_namelen
        else
          NaCl.Event.send fd (NaCl.concat_buffers env msg msg.msg_iovlen.toNat)
            (NaCl.total_len msg msg.msg_iovlen.toNat) flags] ∧
    ((if msg.msg_name ≠ 0 then
          env.sendto fd (NaCl.concat_buffers env msg msg.msg_iovlen.toNat)
            (NaCl.total_len msg msg.msg_iovlen.toNat) flags msg.msg_name msg.msg_namelen
        else
          env.send fd (NaCl.concat_buffers env msg msg.msg_iovlen.toNat)
            (NaCl.total_len msg msg.msg_iovlen.toNat) flags).ret =
        (NaCl.total_len msg msg.msg_iovlen.toNat : Int) →
      (NaCl.sendmsg env errno fd msg flags).ret =
        (NaCl.total_len msg msg.msg_iovlen.toNat : Int)) := by
  have hpow : NaCl.SSIZE_MAX env < 2 ^ env.size_bits := by
    unfold NaCl.SSIZE_MAX
    have h3 : 2 ^ (env.size_bits - 1) ≤ 2 ^ env.size_bits :=
      Nat.pow_le_pow_right (by decide) (Nat.sub_le _ _)
    have h4 : 0 < 2 ^ (env.size_bits - 1) := Nat.two_pow_pos _
    omega
  have hlt : NaCl.total_len msg msg.msg_iovlen.toNat < 2 ^ env.size_bits :=
    lt_of_le_of_lt hL hpow
  have hfs : NaCl.full_size env msg = NaCl.total_len msg msg.msg_iovlen.toNat :=
    NaCl.full_size_loop_eq env msg _ hlt
  have hpay : NaCl.payload env msg = NaCl.concat_buffers env msg msg.msg_iovlen.toNat := by
    unfold NaCl.payload
    rw [hfs]
    exact (NaCl.copy_loop_spec env msg _ hlt).2
  have hcalls := NaCl.copy_loop_calls env msg msg.msg_iovlen.toNat
  have hv : ¬ (msg.msg_iovlen ≤ 0 ∨ msg.msg_iovlen > (env.IOV_MAX : Int)) := by omega
  have hg : ¬ (NaCl.SSIZE_MAX env < NaCl.total_len msg msg.msg_iovlen.toNat) :=
    Nat.not_lt.mpr hL
  by_cases hn : msg.msg_name = 0
  · simp [NaCl.sendmsg, hc, hv, hg, hm, hn, hpay, hfs, List.filter_append, hcalls.1,
      NaCl.Event.isSend]
  · simp [NaCl.sendmsg, hc, hv, hg, hm, hn, hpay, hfs, List.filter_append, hcalls.1,
      NaCl.Event.isSend]

/-- Witness of C4: two buffers of 3 and 2 bytes on the 32-bit runtime. -/
theorem C4_sends_concatenation_witness :
    NaCl.msg2.msg_controllen = 0 ∧ 1 ≤ NaCl.msg2.msg_iovlen ∧
    NaCl.msg2.msg_iovlen ≤ (NaCl.env32.IOV_MAX : Int) ∧
    NaCl.total_len NaCl.msg2 NaCl.msg2.msg_iovlen.toNat ≤ NaCl.SSIZE_MAX NaCl.env32 ∧
    NaCl.env32.malloc_ok (NaCl.alloc_size NaCl.env32 NaCl.msg2) = true ∧
    NaCl.concat_buffers NaCl.env32 NaCl.msg2 NaCl.msg2.msg_iovlen.toNat =
      [232, 233, 234, 208, 209] ∧
    (NaCl.sendmsg NaCl.env32 0 3 NaCl.msg2 0).trace.filter NaCl.Event.isSend =
      [NaCl.Event.send 3 [232, 233, 234, 208, 209] 5 0] ∧
    (NaCl.sendmsg NaCl.env32 0 3 NaCl.msg2 0).ret = 5 :=
  ⟨by decide, by decide, by decide, by decide, by decide, by decide,
    (C4_sends_concatenation NaCl.env32 0 3 0 NaCl.msg2 (by decide) (by decide) (by decide)
      (by decide) (by decide)).1,
    (C4_sends_concatenation NaCl.env32 0 3 0 NaCl.msg2 (by decide) (by decide) (by decide)
      (by decide) (by decide)).2 (by decide)⟩

/-- C5 as stated fails on Windows: with a `malloc` that returns `NULL` and
leaves `errno` alone, a message that passes both checks makes the call return
-1 with `errno` still 0, its value at entry, not `ENOMEM`: the Windows shim
stores nothing in `errno` on this path. -/
theorem C5_windows_leaves_errno :
    Win32.msg2.msg_controllen = 0 ∧
    Win32.msg2.msg_iovlen ≤ Win32.env_nomem.IOV_MAX ∧
    Win32.env_nomem.malloc_ok (Win32.alloc_size Win32.env_nomem Win32.msg2) = false ∧
    (Win32.sendmsg Win32.env_nomem 0 3 Win32.msg2 0).ret = -1 ∧
    (Win32.sendmsg Win32.env_nomem 0 3 Win32.msg2 0).errno = 0 ∧
    (Win32.sendmsg Win32.env_nomem 0 3 Win32.msg2 0).errno ≠ Win32.ENOMEM := by
  refine ⟨?_, ?_, ?_, ?_, ?_, ?_⟩ <;> decide

/-- C5, amended: for a message that passes the ancillary-data and bounds
checks, when the allocation fails the call returns -1 and the only library
call made is that `malloc`, so no native send is invoked; the
sandboxed-runtime shim sets `errno` to `ENOMEM`, while the Windows shim does
not write `errno` and leaves it as the failing `malloc` left it. -/
theorem C5_allocation_failure (wenv : Win32.Env) (nenv : NaCl.Env)
    (errno fd flags : Int) (wmsg : Win32.msghdr) (nmsg : NaCl.msghdr)
    (hwc : wmsg.msg_controllen = 0) (hw : wmsg.msg_iovlen ≤ wenv.IOV_MAX)
    (hwm : wenv.malloc_ok (Win32.alloc_size wenv wmsg) = false)
    (hnc : nmsg.msg_controllen = 0) (hn1 : 1 ≤ nmsg.msg_iovlen)
    (hn2 : nmsg.msg_iovlen ≤ (nenv.IOV_MAX : Int))
    (hng : NaCl.full_size nenv nmsg ≤ NaCl.SSIZE_MAX nenv)
    (hnm : nenv.malloc_ok (NaCl.alloc_size nenv nmsg) = false) :
    Win32.sendmsg wenv errno fd wmsg flags =
      ⟨-1, wenv.malloc_errno.getD errno, [Win32.Event.malloc (Win32.alloc_size wenv wmsg)]⟩ ∧
    (Win32.sendmsg wenv errno fd wmsg flags).trace.filter Win32.Event.isSend = [] ∧
    NaCl.sendmsg nenv errno fd nmsg flags =
      ⟨-1, NaCl.ENOMEM, [NaCl.Event.malloc (NaCl.alloc_size nenv nmsg)]⟩ ∧
    (NaCl.sendmsg nenv errno fd nmsg flags).trace.filter NaCl.Event.isSend = [] := by
  have hw2 : ¬ (wmsg.msg_iovlen > wenv.IOV_MAX) := Nat.not_lt.mpr hw
  have hv : ¬ (nmsg.msg_iovlen ≤ 0 ∨ nmsg.msg_iovlen > (nenv.IOV_MAX : Int)) := by omega
  have hg : ¬ (NaCl.full_size nenv nmsg > NaCl.SSIZE_MAX nenv) := Nat.not_lt.mpr hng
  have e1 : Win32.sendmsg wenv errno fd wmsg flags =
      ⟨-1, wenv.malloc_errno.getD errno,
        [Win32.Event.malloc (Win32.alloc_size wenv wmsg)]⟩ := by
    simp only [Win32.sendmsg, hwc, ne_eq, not_true_eq_false, if_false, if_neg hw2, hwm,
      if_true]
  have e2 : NaCl.sendmsg nenv errno fd nmsg flags =
      ⟨-1, NaCl.ENOMEM, [NaCl.Event.malloc (NaCl.alloc_size nenv nmsg)]⟩ := by
    simp only [NaCl.sendmsg, hnc, ne_eq, not_true_eq_false, if_false, if_neg hv, if_neg hg,
      hnm, if_true]
  refine ⟨e1, ?_, e2, ?_⟩
  · rw [e1]; simp [Win32.Event.isSend]
  · rw [e2]; simp [NaCl.Event.isSend]

/-- Witness of C5 (amended): the failing `malloc` on both 32-bit platforms. -/
theorem C5_allocation_failure_witness :
    (Win32.sendmsg Win32.env_nomem 7 3 Win32.msg2 0).ret = -1 ∧
    (Win32.sendmsg Win32.env_nomem 7 3 Win32.msg2 0).errno = 7 ∧
    (NaCl.sendmsg NaCl.env_nomem 7 3 NaCl.msg2 0).ret = -1 ∧
    (NaCl.sendmsg NaCl.env_nomem 7 3 NaCl.msg2 0).errno = NaCl.ENOMEM := by
  have h := C5_allocation_failure Win32.env_nomem NaCl.env_nomem 7 3 0 Win32.msg2 NaCl.msg2
    (by decide) (by decide) (by decide) (by decide) (by decide) (by decide) (by decide)
    (by decide)
  refine ⟨?_, ?_, ?_, ?_⟩
  · rw [h.1]
  · rw [h.1]; decide
  · rw [h.2.2.1]
  · rw [h.2.2.1]

/-- C6: in the Windows `sendmsg`, for a message that passes validation and
allocation, when `WSASendTo` returns non-zero the call returns -1; `errno` is
`EAGAIN` when `WSAGetLastError()` is `WSAEWOULDBLOCK`, and for every other
native error code `errno` is what it was at entry. -/
theorem C6_would_block_mapping (env : Win32.Env) (errno fd flags : Int) (msg : Win32.msghdr)
    (hc : msg.msg_controllen = 0) (hv : msg.msg_iovlen ≤ env.IOV_MAX)
    (hm : env.malloc_ok (Win32.alloc_size env msg) = true)
    (hf : (Win32.WSASendTo_call env fd msg flags).ret ≠ 0) :
    (Win32.sendmsg env errno fd msg flags).ret = -1 ∧
    ((Win32.WSASendTo_call env fd msg flags).lastError = Win32.WSAEWOULDBLOCK →
      (Win32.sendmsg env errno fd msg flags).errno = Win32.EAGAIN) ∧
    ((Win32.WSASendTo_call env fd msg flags).lastError ≠ Win32.WSAEWOULDBLOCK →
      (Win32.sendmsg env errno fd msg flags).errno = errno) := by
  have hv2 : ¬ (msg.msg_iovlen > env.IOV_MAX) := Nat.not_lt.mpr hv
  by_cases hb : (Win32.WSASendTo_call env fd msg flags).lastError = Win32.WSAEWOULDBLOCK
  · simp [Win32.sendmsg, hc, hv2, hm, hf, hb]
  · simp [Win32.sendmsg, hc, hv2, hm, hf, hb]

/-- Witness of C6: `WSAEWOULDBLOCK` (10035) gives `EAGAIN`; with
`WSAECONNRESET` (10054) `errno` keeps its entry value 7. -/
theorem C6_would_block_mapping_witness :
    (Win32.sendmsg (Win32.env_fail 10035) 7 3 Win32.msg2 0).ret = -1 ∧
    (Win32.sendmsg (Win32.env_fail 10035) 7 3 Win32.msg2 0).errno = Win32.EAGAIN ∧
    (Win32.sendmsg (Win32.env_fail 10054) 7 3 Win32.msg2 0).ret = -1 ∧
    (Win32.sendmsg (Win32.env_fail 10054) 7 3 Win32.msg2 0).errno = 7 :=
  ⟨(C6_would_block_mapping (Win32.env_fail 10035) 7 3 0 Win32.msg2 (by decide) (by decide)
      (by decide) (by decide)).1,
    (C6_would_block_mapping (Win32.env_fail 10035) 7 3 0 Win32.msg2 (by decide) (by decide)
      (by decide) (by decide)).2.1 (by decide),
    (C6_would_block_mapping (Win32.env_fail 10054) 7 3 0 Win32.msg2 (by decide) (by decide)
      (by decide) (by decide)).1,
    (C6_would_block_mapping (Win32.env_fail 10054) 7 3 0 Win32.msg2 (by decide) (by decide)
      (by decide) (by decide)).2.2 (by decide)⟩

/-- C7 as stated fails where `ssize_t` has 32 bits: when `WSASendTo` succeeds
and reports `2 ^ 31` bytes the call returns `-2 ^ 31`, and when it reports
`2 ^ 32 - 1` bytes the call returns -1; both counts are in the `DWORD` range
and neither result is the count, nor non-negative. -/
theorem C7_large_count_turns_negative :
    Win32.msg2.msg_controllen = 0 ∧
    Win32.msg2.msg_iovlen ≤ (Win32.env_sent (2 ^ 31)).IOV_MAX ∧
    (Win32.env_sent (2 ^ 31)).malloc_ok
      (Win32.alloc_size (Win32.env_sent (2 ^ 31)) Win32.msg2) = true ∧
    (Win32.sendmsg (Win32.env_sent (2 ^ 31)) 0 3 Win32.msg2 0).ret = -2147483648 ∧
    (Win32.sendmsg (Win32.env_sent (2 ^ 32 - 1)) 0 3 Win32.msg2 0).ret = -1 := by
  refine ⟨?_, ?_, ?_, ?_, ?_⟩ <;> decide

/-- C7, amended: in the Windows `sendmsg`, for a message that passes
validation and allocation, when `WSASendTo` returns 0 having reported a byte
count `n` in its `DWORD` out-parameter and `n <= SSIZE_MAX` (which is every
`DWORD` value when `ssize_t` has 64 bits), the call returns exactly `n`, a
non-negative value, and `errno` is what it was at entry. -/
theorem C7_success_returns_count (env : Win32.Env) (errno fd flags : Int)
    (msg : Win32.msghdr) (n : Nat)
    (hc : msg.msg_controllen = 0) (hv : msg.msg_iovlen ≤ env.IOV_MAX)
    (hm : env.malloc_ok (Win32.alloc_size env msg) = true)
    (hr : (Win32.WSASendTo_call env fd msg flags).ret = 0)
    (hs : (Win32.WSASendTo_call env fd msg flags).sent = n)
    (hd : n < 2 ^ 32) (hn : n ≤ Win32.SSIZE_MAX env) :
    (Win32.sendmsg env errno fd msg flags).ret = (n : Int) ∧
    0 ≤ (Win32.sendmsg env errno fd msg flags).ret ∧
    (Win32.sendmsg env errno fd msg flags).errno = errno := by
  have hv2 : ¬ (msg.msg_iovlen > env.IOV_MAX) := Nat.not_lt.mpr hv
  have h4 : 0 < 2 ^ (env.size_bits - 1) := Nat.two_pow_pos _
  have hlt : n < 2 ^ (env.size_bits - 1) := by
    unfold Win32.SSIZE_MAX at hn; omega
  have hret : (Win32.sendmsg env errno fd msg flags).ret = (n : Int) := by
    simp only [Win32.sendmsg, hc, ne_eq, not_true_eq_false, if_false, if_neg hv2, hm,
      Bool.true_eq_false, hr, if_true, hs]
    rw [Nat.mod_eq_of_lt hd]
    exact toSigned_of_lt _ _ hlt
  refine ⟨hret, ?_, ?_⟩
  · rw [hret]; exact Int.ofNat_nonneg n
  · simp [Win32.sendmsg, hc, hv2, hm, hr]

/-- Witness of C7 (amended): on 64-bit Windows a reported count of
`2 ^ 32 - 1`, the largest `DWORD`, is returned as it is. -/
theorem C7_success_returns_count_witness :
    (Win32.sendmsg { Win32.env_sent (2 ^ 32 - 1) with size_bits := 64 } 7 3 Win32.msg2 0).ret
      = 4294967295 ∧
    (Win32.sendmsg { Win32.env_sent (2 ^ 32 - 1) with size_bits := 64 } 7 3 Win32.msg2 0).errno
      = 7 :=
  ⟨(C7_success_returns_count { Win32.env_sent (2 ^ 32 - 1) with size_bits := 64 } 7 3 0
      Win32.msg2 (2 ^ 32 - 1) (by decide) (by decide) (by decide) (by decide) (by decide)
      (by decide) (by decide)).1,
    (C7_success_returns_count { Win32.env_sent (2 ^ 32 - 1) with size_bits := 64 } 7 3 0
      Win32.msg2 (2 ^ 32 - 1) (by decide) (by decide) (by decide) (by decide) (by decide)
      (by decide) (by decide)).2.2⟩

/-- C8: `vlc_sendmsg` runs the native `sendmsg` from `errno = 0`; with `r` the
raw result and `e` the value of `errno` afterwards, it returns -1 when
(`r < 0` or `r = 0xFFFFFFFF`) and `e != 0`, and `r` unchanged in every other
case, in particular whenever `e = 0`, even if `r` is negative or equals
`0xFFFFFFFF`; the outcome does not depend on the value of `errno` at entry. -/
theorem C8_vlc_sendmsg_correction {μ : Type} (native : Int → μ → Int → Int → Android.Native)
    (errno fd flags : Int) (msg : μ) :
    (((native fd msg flags 0).ret < 0 ∨ (native fd msg flags 0).ret = 4294967295) ∧
        (native fd msg flags 0).errno ≠ 0 →
      (Android.vlc_sendmsg native errno fd msg flags).ret = -1) ∧
    (¬ (((native fd msg flags 0).ret < 0 ∨ (native fd msg flags 0).ret = 4294967295) ∧
        (native fd msg flags 0).errno ≠ 0) →
      (Android.vlc_sendmsg native errno fd msg flags).ret = (native fd msg flags 0).ret) ∧
    ((native fd msg flags 0).errno = 0 →
      (Android.vlc_sendmsg native errno fd msg flags).ret = (native fd msg flags 0).ret) ∧
    (∀ errno2 : Int, (Android.vlc_sendmsg native errno2 fd msg flags).ret =
      (Android.vlc_sendmsg native errno fd msg flags).ret) := by
  refine ⟨?_, ?_, ?_, ?_⟩
  · intro h
    simp only [Android.vlc_sendmsg]
    rw [if_pos h]
  · intro h
    simp only [Android.vlc_sendmsg]
    rw [if_neg h]
  · intro h
    have h2 : ¬ (((native fd msg flags 0).ret < 0 ∨
        (native fd msg flags 0).ret = 4294967295) ∧ (native fd msg flags 0).errno ≠ 0) :=
      fun hh => hh.2 h
    simp only [Android.vlc_sendmsg]
    rw [if_neg h2]
  · intro errno2
    rfl

/-- Witness of C8: the truncated -1 with `errno` set is turned into -1; a raw
-5 or `0xFFFFFFFF` with `errno` left at 0 is returned as it is. -/
theorem C8_vlc_sendmsg_correction_witness :
    (Android.vlc_sendmsg Android.native_truncated 7 3 () 0).ret = -1 ∧
    (Android.vlc_sendmsg (Android.native_quiet (-5)) 7 3 () 0).ret = -5 ∧
    (Android.vlc_sendmsg (Android.native_quiet 4294967295) 7 3 () 0).ret = 4294967295 :=
  ⟨(C8_vlc_sendmsg_correction Android.native_truncated 7 3 0 ()).1 (by decide),
    (C8_vlc_sendmsg_correction (Android.native_quiet (-5)) 7 3 0 ()).2.2.1 (by decide),
    (C8_vlc_sendmsg_correction (Android.native_quiet 4294967295) 7 3 0 ()).2.2.1
      (by decide)⟩

/-- C10 as stated fails where `size_t` has 64 bits: a buffer whose `iov_len`
is `2 ^ 32`, a `size_t` value there, is described to `WSASendTo` with length 0,
not with its own length, and a destination-address length of `2 ^ 32 + 16`
reaches `WSASendTo`, whose parameter is an `int`, as 16. -/
theorem C10_length_narrowed :
    Win32.msg_big.msg_controllen = 0 ∧
    Win32.msg_big.msg_iovlen ≤ Win32.env64.IOV_MAX ∧
    Win32.env64.malloc_ok (Win32.alloc_size Win32.env64 Win32.msg_big) = true ∧
    (Win32.msg_big.msg_iov 0).iov_len = 2 ^ 32 ∧
    (Win32.msg_big.msg_iov 0).iov_len < 2 ^ Win32.env64.size_bits ∧
    Win32.msg_big.msg_namelen = 2 ^ 32 + 16 ∧
    Win32.msg_big.msg_namelen < 2 ^ Win32.env64.size_bits ∧
    (Win32.sendmsg Win32.env64 0 3 Win32.msg_big 0).trace =
      [Win32.Event.malloc 16, Win32.Event.WSASendTo 3 [⟨0, 4096⟩] 1 0 5000 16,
        Win32.Event.free] := by
  refine ⟨?_, ?_, ?_, ?_, ?_, ?_, ?_, ?_⟩ <;> decide

/-- C10, amended: in the Windows `sendmsg`, for a message that passes
validation and allocation, `WSASendTo` is called once, with a buffer count
equal to `msg_iovlen` and a descriptor array of exactly `msg_iovlen` entries
in which entry `i` holds the pointer of buffer `i` and its `iov_len` reduced
modulo `2 ^ 32`; when every `iov_len` is below `2 ^ 32` the descriptors hold
the original lengths in the original order.  The destination address is passed
as received; its length is converted to `int` and is the original length
whenever that is below `2 ^ 31`; the flags are converted to `DWORD`, which
keeps their 32-bit pattern, and are the original value whenever it is not
negative. -/
theorem C10_descriptor_array (env : Win32.Env) (errno fd flags : Int) (msg : Win32.msghdr)
    (hc : msg.msg_controllen = 0) (hv : msg.msg_iovlen ≤ env.IOV_MAX)
    (hm : env.malloc_ok (Win32.alloc_size env msg) = true) :
    (Win32.sendmsg env errno fd msg flags).trace =
      [Win32.Event.malloc (Win32.alloc_size env msg),
        Win32.Event.WSASendTo (Win32.toSOCKET env fd) (Win32.descriptors env msg)
          msg.msg_iovlen (Win32.toDWORD flags) msg.msg_name (Win32.toINT msg.msg_namelen),
        Win32.Event.free] ∧
    (Win32.descriptors env msg).length = msg.msg_iovlen ∧
    (∀ i, i < msg.msg_iovlen → (Win32.descriptors env msg)[i]? =
      some ⟨(msg.msg_iov i).iov_len % 2 ^ 32, (msg.msg_iov i).iov_base⟩) ∧
    ((∀ i, i < msg.msg_iovlen → (msg.msg_iov i).iov_len < 2 ^ 32) →
      Win32.descriptors env msg = Win32.exact_descriptors msg msg.msg_iovlen) ∧
    (msg.msg_namelen < 2 ^ 31 → Win32.toINT msg.msg_namelen = (msg.msg_namelen : Int)) ∧
    ((Win32.toDWORD flags : Int) % 2 ^ 32 = flags % 2 ^ 32) ∧
    (0 ≤ flags → flags < 2 ^ 31 → (Win32.toDWORD flags : Int) = flags) := by
  have hv2 : ¬ (msg.msg_iovlen > env.IOV_MAX) := Nat.not_lt.mpr hv
  have hcount : msg.msg_iovlen % 2 ^ 32 = msg.msg_iovlen := by
    have h31 := env.IOV_MAX_int
    apply Nat.mod_eq_of_lt
    omega
  refine ⟨?_, ?_, ?_, ?_, ?_, ?_, ?_⟩
  · simp only [Win32.sendmsg, hc, ne_eq, not_true_eq_false, if_false, if_neg hv2, hm,
      Bool.true_eq_false, Win32.WSASendTo_event, hcount]
    split_ifs <;> rfl
  · simp [Win32.descriptors]
  · intro i hi
    rw [Win32.descriptors_eq]
    simp [List.getElem?_map, List.getElem?_range hi]
  · intro hall
    rw [Win32.descriptors_eq]
    unfold Win32.exact_descriptors
    apply List.map_congr_left
    intro i hi
    rw [Nat.mod_eq_of_lt (hall i (List.mem_range.mp hi))]
  · intro hlen
    exact toSigned_of_lt 32 _ hlen
  · unfold Win32.toDWORD
    omega
  · intro h0 h1
    unfold Win32.toDWORD
    omega

/-- Witness of C10 (amended): two buffers of 3 and 2 bytes sent to an address
of 16 bytes with flags 64 on 32-bit Windows. -/
theorem C10_descriptor_array_witness :
    (Win32.sendmsg Win32.env32 0 3 Win32.msg_to 64).trace =
      [Win32.Event.malloc 16,
        Win32.Event.WSASendTo 3 [⟨3, 1000⟩, ⟨2, 2000⟩] 2 64 5000 16, Win32.Event.free] := by
  have h := C10_descriptor_array Win32.env32 0 3 64 Win32.msg_to (by decide) (by decide)
    (by decide)
  rw [h.1]
  decide

end Sendmsg
